import Mathlib

/-!
Shallow embedding of the cohere-reverse-proxy repository: the forwarding
engine (internal.NewProxy, built on net/http/httputil.ReverseProxy) and the
server lifecycle manager (internal.Server from server.go).  Pure Go values
become Lean structures; the Go standard-library functions the repository
calls (ProxyRequest.SetXForwarded, ProxyRequest.SetURL, the ReverseProxy
rewrite phase and its default error handler, net.SplitHostPort,
http.Server.Serve's return contract) are translated here from their sources
so that the repository's configuration of them can be reasoned about.
External effects (the network) are passed in as explicit outcome parameters.
-/

/-- Go time.Duration: a signed count of nanoseconds (int64 in Go; the values
appearing in this program are small, so plain Int is an exact model). -/
abbrev Duration := Int

/-- time.Second in nanoseconds. -/
def second : Duration := 1000000000

/-- time.Millisecond in nanoseconds. -/
def millisecond : Duration := 1000000

/-- http.Header: Go stores a map from canonicalized header keys to value
lists.  The embedding uses an ordered association list with exact key match,
which is faithful here because every key the program touches is written in
its canonical MIME form already. -/
abbrev Header := List (String × List String)

/-- Header lookup of all values for a key (first entry wins; the Go map has
at most one entry per key, an invariant Header.set and Header.del keep). -/
def Header.values : Header → String → List String
  | [], _ => []
  | (k2, vs) :: rest, k => if k2 = k then vs else Header.values rest k

/-- http.Header.Del: remove every entry stored under the key. -/
def Header.del : Header → String → Header
  | [], _ => []
  | (k2, vs) :: rest, k =>
      if k2 = k then Header.del rest k else (k2, vs) :: Header.del rest k

/-- http.Header.Set: replace whatever is stored under the key by the single
value (map assignment, modelled as delete-then-add). -/
def Header.set (h : Header) (k v : String) : Header :=
  Header.del h k ++ [(k, [v])]

/-- http.Header.Get: the first value stored under the key, none when the
key is absent. -/
def Header.get (h : Header) (k : String) : Option String :=
  (Header.values h k).head?

/-- The subset of net/url.URL the proxy reads and writes: Scheme, Host,
Path, RawPath and RawQuery. -/
structure URL where
  scheme : String
  host : String
  path : String
  rawPath : String
  rawQuery : String
deriving DecidableEq

/-- url.URL.EscapedPath: RawPath when one is set, otherwise Path.  (Go
additionally checks that a set RawPath is a valid encoding of Path and
recomputes it otherwise; the embedding takes a set RawPath at its word.) -/
def URL.escapedPath (u : URL) : String :=
  if u.rawPath = "" then u.path else u.rawPath

/-- The subset of http.Request the proxy touches: RemoteAddr, Host, URL,
Header, and whether the connection carries TLS state. -/
structure Request where
  remoteAddr : String
  host : String
  url : URL
  header : Header
  tls : Bool
deriving DecidableEq

/-- httputil.ProxyRequest: the pair of the inbound request and the outbound
request under construction that the Rewrite hook receives. -/
structure ProxyRequest where
  inReq : Request
  outReq : Request

/-- Splits a character list at its last colon, returning (before, after);
none when no colon occurs. -/
def lastColonSplit : List Char → Option (List Char × List Char)
  | [] => none
  | c :: rest =>
      match lastColonSplit rest with
      | some (h, p) => some (c :: h, p)
      | none => if c = ':' then some ([], rest) else none

/-- Removes one matched pair of square brackets around a bracketed IPv6
host, as net.SplitHostPort does. -/
def stripBrackets (h : List Char) : List Char :=
  match h with
  | '[' :: rest => if rest.getLast? = some ']' then rest.dropLast else '[' :: rest
  | _ => h

/-- net.SplitHostPort: splits host:port at the last colon and unwraps a
bracketed IPv6 host; an address with no colon is an error (none).  The
validation of stray brackets is elided — the remote addresses an accepted
connection reports are always of the accepted ip:port form. -/
def splitHostPort (s : String) : Option (String × String) :=
  match lastColonSplit s.data with
  | none => none
  | some (h, p) => some (String.mk (stripBrackets h), String.mk p)

/-- strings.HasPrefix, on the character lists underlying the strings. -/
def goHasPre (s pre : String) : Bool :=
  pre.data.isPrefixOf s.data

/-- strings.HasSuffix, on the character lists underlying the strings. -/
def goHasSuf (s suf : String) : Bool :=
  suf.data.isSuffixOf s.data

/-- Drops the first character of a string (the b[1:] of the Go source,
which is applied only after a leading slash has been observed). -/
def dropFirstChar (s : String) : String :=
  String.mk (s.data.drop 1)

/-- httputil.ProxyRequest.SetXForwarded: sets X-Forwarded-For from the
inbound RemoteAddr (appending to values already present on the OUTBOUND
header), X-Forwarded-Host from the inbound Host, and X-Forwarded-Proto
from the inbound TLS state; a RemoteAddr that does not split drops the
X-Forwarded-For header instead. -/
def ProxyRequest.setXForwarded (r : ProxyRequest) : ProxyRequest :=
  let out1 :=
    match splitHostPort r.inReq.remoteAddr with
    | some (clientIP, _) =>
        let prior := Header.values r.outReq.header "X-Forwarded-For"
        let v :=
          if prior.length > 0 then
            String.intercalate ", " prior ++ ", " ++ clientIP
          else clientIP
        { r.outReq with header := Header.set r.outReq.header "X-Forwarded-For" v }
    | none =>
        { r.outReq with header := Header.del r.outReq.header "X-Forwarded-For" }
  let out2 := { out1 with header := Header.set out1.header "X-Forwarded-Host" r.inReq.host }
  let proto := if r.inReq.tls then "https" else "http"
  let out3 := { out2 with header := Header.set out2.header "X-Forwarded-Proto" proto }
  { r with outReq := out3 }

/-- httputil's singleJoiningSlash: joins two path segments with exactly one
slash between them when either side contributes one. -/
def singleJoiningSlash (a b : String) : String :=
  let aslash := goHasSuf a "/"
  let bslash := goHasPre b "/"
  if aslash && bslash then a ++ dropFirstChar b
  else if !aslash && !bslash then a ++ "/" ++ b
  else a ++ b

/-- httputil's joinURLPath: returns the joined (Path, RawPath) of the
target and the request URL. -/
def joinURLPath (a b : URL) : String × String :=
  if a.rawPath = "" ∧ b.rawPath = "" then
    (singleJoiningSlash a.path b.path, "")
  else
    let apath := a.escapedPath
    let bpath := b.escapedPath
    let aslash := goHasSuf apath "/"
    let bslash := goHasPre bpath "/"
    if aslash && bslash then (a.path ++ dropFirstChar b.path, apath ++ dropFirstChar bpath)
    else if !aslash && !bslash then (a.path ++ "/" ++ b.path, apath ++ "/" ++ bpath)
    else (a.path ++ b.path, apath ++ bpath)

/-- httputil's rewriteRequestURL: overwrite the request URL's scheme and
host with the target's, join the paths, and concatenate the queries. -/
def rewriteRequestURL (req : Request) (target : URL) : Request :=
  let targetQuery := target.rawQuery
  let joined := joinURLPath target req.url
  let newRawQuery :=
    if targetQuery = "" ∨ req.url.rawQuery = "" then targetQuery ++ req.url.rawQuery
    else targetQuery ++ "&" ++ req.url.rawQuery
  { req with
      url := { req.url with
                 scheme := target.scheme
                 host := target.host
                 path := joined.fst
                 rawPath := joined.snd
                 rawQuery := newRawQuery } }

/-- httputil.ProxyRequest.SetURL: rewrite the outbound URL onto the target
and clear the outbound Host field so the Host header follows the URL. -/
def ProxyRequest.setURL (r : ProxyRequest) (target : URL) : ProxyRequest :=
  { r with outReq := { rewriteRequestURL r.outReq target with host := "" } }

/-- The timeout fields NewProxy sets on its http.Transport: the net.Dialer's
Timeout and KeepAlive, TLSHandshakeTimeout, ResponseHeaderTimeout and
ExpectContinueTimeout.  (http2.ConfigureTransport is then called on the
same value; it registers an h2 upgrade and touches none of these fields.) -/
structure Transport where
  dialTimeout : Duration
  dialKeepAlive : Duration
  tlsHandshakeTimeout : Duration
  responseHeaderTimeout : Duration
  expectContinueTimeout : Duration
deriving DecidableEq

/-- http.StatusBadGateway. -/
def statusBadGateway : Nat := 502

/-- The fields of httputil.ReverseProxy the program configures: Transport,
FlushInterval and Rewrite; ErrorHandler is a field of the struct the
program leaves at its zero value (none). -/
structure ReverseProxy where
  transport : Transport
  flushInterval : Duration
  rewrite : ProxyRequest → ProxyRequest
  errorHandler : Option (String → Nat)

/-- ReverseProxy.getErrorHandler: the configured ErrorHandler when one is
set, otherwise defaultErrorHandler, which logs the error server-side and
writes http.StatusBadGateway to the client (the status is all the default
handler emits — the error text itself never reaches the client). -/
def ReverseProxy.errorStatus (p : ReverseProxy) (e : String) : Nat :=
  match p.errorHandler with
  | some h => h e
  | none => statusBadGateway

/-- internal.NewProxy: the reverse proxy the repository builds — the
custom transport with its five timeouts, a 10ms FlushInterval, a Rewrite
hook that calls SetXForwarded then SetURL(target), and no ErrorHandler. -/
def NewProxy (target : URL) : ReverseProxy :=
  { transport :=
      { dialTimeout := 30 * second
        dialKeepAlive := 30 * second
        tlsHandshakeTimeout := 10 * second
        responseHeaderTimeout := 10 * second
        expectContinueTimeout := 1 * second }
    flushInterval := 10 * millisecond
    rewrite := fun r => ProxyRequest.setURL (ProxyRequest.setXForwarded r) target
    errorHandler := none }

/-- The header stripping ReverseProxy.ServeHTTP performs on the outbound
clone before invoking a configured Rewrite hook: any client-supplied
Forwarded, X-Forwarded-For, X-Forwarded-Host and X-Forwarded-Proto headers
are deleted so the Rewrite hook starts from a clean slate. -/
def stripForwardHeaders (req : Request) : Request :=
  { req with
      header :=
        Header.del (Header.del (Header.del (Header.del req.header
          "Forwarded") "X-Forwarded-For") "X-Forwarded-Host") "X-Forwarded-Proto" }

/-- The rewrite phase of ReverseProxy.ServeHTTP with a Rewrite hook set:
clone the inbound request, strip the forwarding headers from the clone,
run the hook on the (inbound, outbound) pair and keep its outbound side. -/
def rewriteOutbound (p : ReverseProxy) (req : Request) : Request :=
  (p.rewrite { inReq := req, outReq := stripForwardHeaders req }).outReq

/-- The part of the origin's response the Bad-Gateway claim observes. -/
structure OriginResponse where
  status : Nat
deriving DecidableEq

/-- The response the proxy hands the client, observed by its status. -/
structure ClientResponse where
  status : Nat
deriving DecidableEq

/-- The request path of ReverseProxy.ServeHTTP up to the response status:
rewrite the outbound request, attempt the round trip over the transport
(supplied as an explicit outcome function, since the embedding has no
network), and on a transport error invoke the error handler — before any
response has started the client therefore sees the handler's status. -/
def serveHTTP (p : ReverseProxy) (req : Request)
    (roundTrip : Request → Except String OriginResponse) : ClientResponse :=
  match roundTrip (rewriteOutbound p req) with
  | Except.error e => { status := ReverseProxy.errorStatus p e }
  | Except.ok res => { status := res.status }

/-- How ReverseProxy.copyResponse relays the body, decided by
FlushInterval: zero means one bulk copy; any other interval wraps the
client writer in a max-latency flusher driven on that period. -/
inductive CopyMode where
  | bulk
  | periodicFlush (interval : Duration)
deriving DecidableEq

/-- The copy mode ServeHTTP selects from the configured FlushInterval. -/
def ReverseProxy.copyMode (p : ReverseProxy) : CopyMode :=
  if p.flushInterval = 0 then CopyMode.bulk else CopyMode.periodicFlush p.flushInterval

/-- net.Listener, observed through the one method the program calls on it:
Addr().String(), the resolved listening address. -/
structure Listener where
  addr : String
deriving DecidableEq

/-- The http.Server NewServer builds: the proxy handler plus the four
client-facing protective timeouts. -/
structure HServer where
  handler : ReverseProxy
  readTimeout : Duration
  writeTimeout : Duration
  idleTimeout : Duration
  readHeaderTimeout : Duration

/-- internal.Server: wraps the http.Server and the listener; a fresh
server has no listener (Go nil, embedded as none). -/
structure Server where
  srv : HServer
  listener : Option Listener

/-- internal.NewServer: builds the proxy for the target and an http.Server
with ReadTimeout 5s, WriteTimeout 10s, IdleTimeout 30s and
ReadHeaderTimeout 2s; the listener field starts out nil. -/
def NewServer (target : URL) : Server :=
  { srv :=
      { handler := NewProxy target
        readTimeout := 5 * second
        writeTimeout := 10 * second
        idleTimeout := 30 * second
        readHeaderTimeout := 2 * second }
    listener := none }

/-- The error value http.ErrServerClosed carries. -/
def errServerClosed : String := "http: Server closed"

/-- The reason http.Server.Serve eventually returned: either Shutdown (or
Close) was called, or the accept loop failed with a system error.  The
embedding supplies this as a parameter, the network being external. -/
inductive ServeEvent where
  | shutdownCompleted
  | acceptFailed (e : String)

/-- http.Server.Serve on a listener, by its documented contract: it always
returns a non-nil error; after Shutdown or Close the returned error is
ErrServerClosed, otherwise it is the error of the failed accept loop. -/
def httpServe (_srv : HServer) (_l : Listener) (ev : ServeEvent) : Except String Unit :=
  match ev with
  | ServeEvent.shutdownCompleted => Except.error errServerClosed
  | ServeEvent.acceptFailed e => Except.error e

/-- internal.Server.Listen: net.Listen("tcp", address) (its outcome passed
in explicitly); on failure the error is wrapped as "failed to create
listener: ..." and the server is unchanged, on success the listener is
stored for later Serve and URL calls. -/
def Server.listen (s : Server) (res : Except String Listener) :
    Except String Unit × Server :=
  match res with
  | Except.error e => (Except.error ("failed to create listener: " ++ e), s)
  | Except.ok l => (Except.ok (), { s with listener := some l })

/-- internal.Server.Serve: a nil listener is a precondition error with the
exact message the code writes; otherwise the call delegates to
http.Server.Serve on the stored listener. -/
def Server.serve (s : Server) (ev : ServeEvent) : Except String Unit :=
  match s.listener with
  | none => Except.error "must call Listen() before Serve()"
  | some l => httpServe s.srv l ev

/-- internal.Server.ListenAndServe: Listen(address), return its error on
failure, and otherwise call s.srv.Serve(s.listener) directly — note: the
Go source bypasses the Server.Serve wrapper here, so the nil-listener
guard is not consulted; a nil listener at that call would be a nil
dereference inside net/http, embedded as a distinguished panic value on
the (unreachable) branch. -/
def Server.listenAndServe (s : Server) (res : Except String Listener)
    (ev : ServeEvent) : Except String Unit × Server :=
  let p := Server.listen s res
  match p.fst with
  | Except.error e => (Except.error e, p.snd)
  | Except.ok _ =>
      match p.snd.listener with
      | some l => (httpServe p.snd.srv l ev, p.snd)
      | none => (Except.error "panic: nil listener", p.snd)

/-- internal.Server.Shutdown wraps its context with this 10 second timeout
before delegating to http.Server.Shutdown. -/
def Server.shutdownGrace : Duration := 10 * second

/-- internal.Server.URL: fmt.Sprintf("http://%s", s.listener.Addr().String()).
The listener is dereferenced with no nil guard: on a server that never
completed Listen this is a runtime nil-pointer panic, embedded as none;
with a listener present it is the safe some value. -/
def Server.url (s : Server) : Option String :=
  match s.listener with
  | none => none
  | some l => some ("http://" ++ l.addr)

/-- The composition the specification describes for listenAndServe: the
public bind step, then — only on bind success — the public serve step,
returning serve's result and the bound state. -/
def listenThenServeSpec (s : Server) (res : Except String Listener)
    (ev : ServeEvent) : Except String Unit × Server :=
  match Server.listen s res with
  | (Except.error e, s1) => (Except.error e, s1)
  | (Except.ok _, s1) => (Server.serve s1 ev, s1)

/-- The default target URL of main.go, http://127.0.0.1:8000, as parsed by
url.Parse: empty path, raw path and query. -/
def defaultTarget : URL :=
  { scheme := "http", host := "127.0.0.1:8000", path := "", rawPath := "", rawQuery := "" }

/-- A concrete inbound request: a client at 127.0.0.1:54321 asking the
proxy (listening on 127.0.0.1:8080) for /anything?q=1 over plain HTTP. -/
def sampleReq : Request :=
  { remoteAddr := "127.0.0.1:54321"
    host := "127.0.0.1:8080"
    url := { scheme := "http", host := "127.0.0.1:8080", path := "/anything",
             rawPath := "", rawQuery := "q=1" }
    header := []
    tls := false }

/-- A concrete inbound request that already carries a client-supplied
X-Forwarded-For header naming 1.2.3.4, sent from 10.0.0.1:5678. -/
def xfwdInbound : Request :=
  { remoteAddr := "10.0.0.1:5678"
    host := "example.com:8080"
    url := { scheme := "http", host := "example.com:8080", path := "/anything",
             rawPath := "", rawQuery := "" }
    header := [("X-Forwarded-For", ["1.2.3.4"])]
    tls := false }

/-- Deleting a key removes every value stored under it. -/
theorem Header.values_del_self (h : Header) (k : String) :
    Header.values (Header.del h k) k = [] := by
  induction h with
  | nil => rfl
  | cons p rest ih =>
      obtain ⟨k2, vs⟩ := p
      by_cases hk : k2 = k
      · simp [Header.del, hk, ih]
      · simp [Header.del, Header.values, hk, ih]

/-- Deleting one key leaves the values of a different key unchanged. -/
theorem Header.values_del_ne (h : Header) (k k2 : String) (hne : k2 ≠ k) :
    Header.values (Header.del h k2) k = Header.values h k := by
  induction h with
  | nil => rfl
  | cons p rest ih =>
      obtain ⟨k3, vs⟩ := p
      by_cases hk : k3 = k2
      · subst hk
        simp [Header.del, Header.values, hne, ih]
      · simp [Header.del, Header.values, hk, ih]

/-- After deleting a key from the front part, lookup falls through to the
appended part. -/
theorem Header.values_del_append (h h2 : Header) (k : String) :
    Header.values (Header.del h k ++ h2) k = Header.values h2 k := by
  induction h with
  | nil => rfl
  | cons p rest ih =>
      obtain ⟨k2, vs⟩ := p
      by_cases hk : k2 = k
      · simp [Header.del, hk, ih]
      · simp [Header.del, Header.values, hk, ih]

/-- Appending an entry for a different key does not change a lookup. -/
theorem Header.values_append_single_ne (h1 : Header) (k k2 : String)
    (vs : List String) (hne : k2 ≠ k) :
    Header.values (h1 ++ [(k2, vs)]) k = Header.values h1 k := by
  induction h1 with
  | nil => simp [Header.values, hne]
  | cons p rest ih =>
      obtain ⟨k3, vs3⟩ := p
      by_cases hk : k3 = k
      · simp [Header.values, hk]
      · simp [Header.values, hk, ih]

/-- Header.set stores exactly the one value under its key. -/
theorem Header.values_set_self (h : Header) (k v : String) :
    Header.values (Header.set h k v) k = [v] := by
  rw [Header.set, Header.values_del_append]
  simp [Header.values]

/-- Header.set leaves the values of any other key unchanged. -/
theorem Header.values_set_ne (h : Header) (k k2 v : String) (hne : k2 ≠ k) :
    Header.values (Header.set h k2 v) k = Header.values h k := by
  rw [Header.set, Header.values_append_single_ne _ _ _ _ hne,
      Header.values_del_ne _ _ _ hne]

/-- SetXForwarded only touches headers, never the outbound URL. -/
theorem setXForwarded_outUrl (r : ProxyRequest) :
    (ProxyRequest.setXForwarded r).outReq.url = r.outReq.url := by
  unfold ProxyRequest.setXForwarded
  cases splitHostPort r.inReq.remoteAddr with
  | none => rfl
  | some p => rfl

/-- SetURL only touches the outbound URL and Host, never the headers. -/
theorem setURL_outHeader (r : ProxyRequest) (t : URL) :
    (ProxyRequest.setURL r t).outReq.header = r.outReq.header := rfl

/-- Prepending the empty string is the identity on strings. -/
theorem string_empty_append (s : String) : "" ++ s = s := by
  cases s
  rfl

/-- C1: for every inbound request, the rewrite step of the proxy built by
NewProxy produces an outbound request whose URL scheme and host equal the
target's, whatever the inbound scheme and host were; and with the default
configuration — a target with empty path, raw path and query, i.e. no
prefix rule — the inbound path (an origin-form path beginning with a
slash) and query are preserved verbatim. -/
theorem rewrite_targets_url_preserves_path_query (target : URL) (req : Request)
    (htp : target.path = "") (htr : target.rawPath = "") (htq : target.rawQuery = "")
    (hrp : goHasPre req.url.path "/" = true) (hrr : req.url.rawPath = "") :
    (rewriteOutbound (NewProxy target) req).url.scheme = target.scheme ∧
    (rewriteOutbound (NewProxy target) req).url.host = target.host ∧
    (rewriteOutbound (NewProxy target) req).url.path = req.url.path ∧
    (rewriteOutbound (NewProxy target) req).url.rawQuery = req.url.rawQuery := by
  have hu : (ProxyRequest.setXForwarded
      { inReq := req, outReq := stripForwardHeaders req }).outReq.url = req.url := by
    rw [setXForwarded_outUrl]
    rfl
  have hslash : goHasSuf "" "/" = false := by decide
  refine ⟨rfl, rfl, ?_, ?_⟩
  · show (joinURLPath target (ProxyRequest.setXForwarded
      { inReq := req, outReq := stripForwardHeaders req }).outReq.url).fst = req.url.path
    rw [hu]
    simp [joinURLPath, htr, hrr, htp, singleJoiningSlash, hslash, hrp, string_empty_append]
  · show (if target.rawQuery = "" ∨ (ProxyRequest.setXForwarded
      { inReq := req, outReq := stripForwardHeaders req }).outReq.url.rawQuery = ""
        then target.rawQuery ++ (ProxyRequest.setXForwarded
          { inReq := req, outReq := stripForwardHeaders req }).outReq.url.rawQuery
        else target.rawQuery ++ "&" ++ (ProxyRequest.setXForwarded
          { inReq := req, outReq := stripForwardHeaders req }).outReq.url.rawQuery)
      = req.url.rawQuery
    rw [hu]
    simp [htq, string_empty_append]

/-- C1 witness: the theorem applied to the default target and a concrete
request for /anything?q=1. -/
theorem rewrite_targets_url_witness :
    (rewriteOutbound (NewProxy defaultTarget) sampleReq).url.scheme = defaultTarget.scheme ∧
    (rewriteOutbound (NewProxy defaultTarget) sampleReq).url.host = defaultTarget.host ∧
    (rewriteOutbound (NewProxy defaultTarget) sampleReq).url.path = sampleReq.url.path ∧
    (rewriteOutbound (NewProxy defaultTarget) sampleReq).url.rawQuery = sampleReq.url.rawQuery :=
  rewrite_targets_url_preserves_path_query defaultTarget sampleReq rfl rfl rfl (by decide) rfl

/-- C2: when the transport fails to obtain any response from the origin —
so before a response has started — the proxy NewProxy builds answers the
client with a well-formed response carrying http.StatusBadGateway (502),
because the proxy configures no ErrorHandler and the default one writes
exactly that status, and nothing of the raw error text. -/
theorem transport_error_yields_bad_gateway (target : URL) (req : Request)
    (roundTrip : Request → Except String OriginResponse) (e : String)
    (herr : roundTrip (rewriteOutbound (NewProxy target) req) = Except.error e) :
    serveHTTP (NewProxy target) req roundTrip = { status := statusBadGateway } := by
  unfold serveHTTP
  rw [herr]
  rfl

/-- C2 witness: the theorem applied to the default target, the sample
request, and a transport that always refuses the connection. -/
theorem transport_error_yields_bad_gateway_witness :
    serveHTTP (NewProxy defaultTarget) sampleReq
      (fun _ => Except.error "connection refused") = { status := statusBadGateway } :=
  transport_error_yields_bad_gateway defaultTarget sampleReq
    (fun _ => Except.error "connection refused") "connection refused" rfl

/-- C3 counterexample: an inbound request from 10.0.0.1:5678 already
carrying X-Forwarded-For: 1.2.3.4 leaves the rewrite with the header equal
to just "10.0.0.1" — not the appended "1.2.3.4, 10.0.0.1" the claim
requires.  The ServeHTTP rewrite phase strips client-supplied forwarding
headers before SetXForwarded runs, so the engine overwrites rather than
appends. -/
theorem xforwarded_overwritten_counterexample :
    Header.get (rewriteOutbound (NewProxy defaultTarget) xfwdInbound).header
      "X-Forwarded-For" = some "10.0.0.1" ∧
    Header.get (rewriteOutbound (NewProxy defaultTarget) xfwdInbound).header
      "X-Forwarded-For" ≠ some "1.2.3.4, 10.0.0.1" := by
  constructor
  · decide
  · decide

/-- C3 amended: for every inbound request whose remote address splits into
ip and port, the outbound X-Forwarded-For header carries exactly the true
originating client address; any client-supplied value of that header has
been stripped and replaced, not appended to. -/
theorem xforwarded_for_is_client_ip (target : URL) (req : Request) (ip port : String)
    (hsp : splitHostPort req.remoteAddr = some (ip, port)) :
    Header.get (rewriteOutbound (NewProxy target) req).header "X-Forwarded-For" = some ip := by
  have hstrip : Header.values (stripForwardHeaders req).header "X-Forwarded-For" = [] := by
    show Header.values (Header.del (Header.del (Header.del (Header.del req.header
      "Forwarded") "X-Forwarded-For") "X-Forwarded-Host") "X-Forwarded-Proto")
      "X-Forwarded-For" = []
    rw [Header.values_del_ne _ _ _ (by decide), Header.values_del_ne _ _ _ (by decide),
        Header.values_del_self]
  rw [show (rewriteOutbound (NewProxy target) req).header
      = (ProxyRequest.setXForwarded
          { inReq := req, outReq := stripForwardHeaders req }).outReq.header
     from setURL_outHeader _ target]
  simp only [ProxyRequest.setXForwarded]
  simp only [hsp]
  rw [hstrip]
  simp only [List.length_nil, gt_iff_lt, lt_self_iff_false, if_false]
  rw [Header.get, Header.values_set_ne _ _ _ _ (by decide),
      Header.values_set_ne _ _ _ _ (by decide), Header.values_set_self]
  rfl

/-- C3 amended witness: the theorem applied to the request from
10.0.0.1:5678 that carried its own X-Forwarded-For. -/
theorem xforwarded_for_is_client_ip_witness :
    splitHostPort xfwdInbound.remoteAddr = some ("10.0.0.1", "5678") ∧
    Header.get (rewriteOutbound (NewProxy defaultTarget) xfwdInbound).header
      "X-Forwarded-For" = some "10.0.0.1" :=
  ⟨by decide,
   xforwarded_for_is_client_ip defaultTarget xfwdInbound "10.0.0.1" "5678" (by decide)⟩

/-- C4 counterexample: on a bound server, when shutdown completes while
serve is in progress, Serve returns the error value ErrServerClosed
("http: Server closed") — a non-nil error, not the clean error-free return
the claim states. -/
theorem serve_after_shutdown_counterexample :
    Server.serve { NewServer defaultTarget with
        listener := some { addr := "127.0.0.1:8001" } } ServeEvent.shutdownCompleted
      = Except.error "http: Server closed" ∧
    Server.serve { NewServer defaultTarget with
        listener := some { addr := "127.0.0.1:8001" } } ServeEvent.shutdownCompleted
      ≠ Except.ok () := by
  refine ⟨rfl, ?_⟩
  intro hcontra
  exact Except.noConfusion hcontra

/-- C4 amended: when shutdown completes normally on a server whose serve is
in progress, serve returns the distinguished sentinel error
http.ErrServerClosed — the Go-idiomatic "closed cleanly" indication —
rather than hanging or reporting an accept failure; it is an error value,
not an error-free return. -/
theorem serve_errServerClosed_after_shutdown (s : Server) (l : Listener)
    (h : s.listener = some l) :
    Server.serve s ServeEvent.shutdownCompleted = Except.error errServerClosed := by
  unfold Server.serve
  rw [h]
  rfl

/-- C4 amended witness: the theorem applied to a server bound on
127.0.0.1:8001. -/
theorem serve_errServerClosed_after_shutdown_witness :
    Server.serve { NewServer defaultTarget with
        listener := some { addr := "127.0.0.1:8001" } } ServeEvent.shutdownCompleted
      = Except.error errServerClosed :=
  serve_errServerClosed_after_shutdown
    { NewServer defaultTarget with listener := some { addr := "127.0.0.1:8001" } }
    { addr := "127.0.0.1:8001" } rfl

/-- C5: on every server whose listener is nil (Listen never succeeded),
Serve fails immediately — whatever the network would have done — with a
precondition error whose message is exactly "must call Listen() before
Serve()", and no implicit bind is attempted (the server state is not
consulted further). -/
theorem serve_without_listen_errors (s : Server) (h : s.listener = none)
    (ev : ServeEvent) :
    Server.serve s ev = Except.error "must call Listen() before Serve()" := by
  unfold Server.serve
  rw [h]

/-- C5 witness: a freshly constructed server has a nil listener and Serve
on it reports the exact precondition message. -/
theorem serve_without_listen_errors_witness :
    (NewServer defaultTarget).listener = none ∧
    Server.serve (NewServer defaultTarget) ServeEvent.shutdownCompleted
      = Except.error "must call Listen() before Serve()" :=
  ⟨rfl, serve_without_listen_errors (NewServer defaultTarget) rfl ServeEvent.shutdownCompleted⟩

/-- C6: for every target URL the transport NewProxy constructs has exactly
the five documented timeouts — dial 30s, keep-alive 30s, TLS handshake
10s, response-header wait 10s, expect-continue 1s. -/
theorem transport_timeout_policy (target : URL) :
    (NewProxy target).transport.dialTimeout = 30 * second ∧
    (NewProxy target).transport.dialKeepAlive = 30 * second ∧
    (NewProxy target).transport.tlsHandshakeTimeout = 10 * second ∧
    (NewProxy target).transport.responseHeaderTimeout = 10 * second ∧
    (NewProxy target).transport.expectContinueTimeout = 1 * second :=
  ⟨rfl, rfl, rfl, rfl, rfl⟩

/-- C7: for every target URL the server NewServer constructs applies
exactly the four client-facing protective timeouts — header read 2s, full
request read 5s, write 10s, idle connection 30s. -/
theorem server_timeout_policy (target : URL) :
    (NewServer target).srv.readHeaderTimeout = 2 * second ∧
    (NewServer target).srv.readTimeout = 5 * second ∧
    (NewServer target).srv.writeTimeout = 10 * second ∧
    (NewServer target).srv.idleTimeout = 30 * second :=
  ⟨rfl, rfl, rfl, rfl⟩

/-- C8: for every target URL the proxy NewProxy builds sets FlushInterval
to exactly 10 milliseconds, and with that non-zero interval the response
body relay runs in the periodically-flushing mode rather than as a single
bulk copy. -/
theorem flush_policy (target : URL) :
    (NewProxy target).flushInterval = 10 * millisecond ∧
    ReverseProxy.copyMode (NewProxy target) = CopyMode.periodicFlush (10 * millisecond) := by
  refine ⟨rfl, ?_⟩
  unfold ReverseProxy.copyMode
  have hfi : (NewProxy target).flushInterval = 10 * millisecond := rfl
  rw [hfi, if_neg (by decide)]

/-- C9: for every server state, listen outcome and serve outcome,
ListenAndServe is observationally equivalent to the composition of Listen
followed on success by Serve — same error result and same final server
state in both the bind-failure and the bind-success case. -/
theorem listenAndServe_refines_composition (s : Server) (res : Except String Listener)
    (ev : ServeEvent) :
    Server.listenAndServe s res ev = listenThenServeSpec s res ev := by
  cases res with
  | error e => rfl
  | ok l => rfl

/-- C10: URL() on a server whose Listen never succeeded dereferences the
nil listener — the none outcome modelling the unguarded nil-pointer crash;
once a listener is present the access is safe and returns "http://"
concatenated with the resolved listener address. -/
theorem url_requires_listener (s : Server) :
    (s.listener = none → Server.url s = none) ∧
    (∀ l : Listener, s.listener = some l → Server.url s = some ("http://" ++ l.addr)) := by
  constructor
  · intro h
    unfold Server.url
    rw [h]
  · intro l h
    unfold Server.url
    rw [h]

/-- C10 witness: a fresh server crashes (none); a server bound on an
ephemeral port reports its http URL. -/
theorem url_requires_listener_witness :
    Server.url (NewServer defaultTarget) = none ∧
    Server.url { NewServer defaultTarget with
        listener := some { addr := "127.0.0.1:43111" } }
      = some ("http://" ++ "127.0.0.1:43111") :=
  ⟨(url_requires_listener (NewServer defaultTarget)).1 rfl,
   (url_requires_listener { NewServer defaultTarget with
       listener := some { addr := "127.0.0.1:43111" } }).2 { addr := "127.0.0.1:43111" } rfl⟩
